import Mathlib

/-!
# Verification of the Promptly heuristic analysis engine

Shallow embedding of `src/core/prompt_analyzer.py` (class `AdvancedPromptAnalyzer`):
the five lexical scorers, the feedback synthesizer, the rule-based fallback
analyzer, the external-response validator and plausibility check, and the
top-level arbiter `comprehensive_analysis`.

Modelling conventions:
* Python strings are Lean `String`s; character-level operations work on
  `List Char`.  Python `str.lower()` is modelled as the character-wise
  `Char.toLower` map (identical on ASCII, which covers every keyword lexicon
  in the source).  Python `str.split()` (split on whitespace runs, dropping
  empties) is `pyWords`; Python whitespace is modelled by `Char.isWhitespace`.
* Python floats are modelled as exact rationals `ℚ`.  Every score produced by
  the source is a small multiple of 1/10, far from any binary-float rounding
  boundary, so exact rational arithmetic agrees with the float computation.
  `round(x, 1)` is modelled by `roundTo1`; Python's round-half-to-even never
  differs from round-half-up on the values that reach it here because a tie
  would need `10*x` to have fractional part 1/2, while all rounded values in
  the source have `50*x` integral (see `roundTo1`).
* Parsed JSON values (the output of `json.loads`) are the inductive `JValue`.
  Python's `bool` being a subclass of `int` (so `isinstance(True, int)` holds
  and `True == 1`) is modelled faithfully by `pyIsNum` / `toNumVal`.
* A Python function that can raise an uncaught exception is modelled with an
  `Option` result, `none` meaning "raises".  Totality of the scorers (they
  never raise on any string) is expressed by giving them the plain type
  `String → ℚ`.
-/

-- Batteries marks the `Rat` arithmetic operations `@[irreducible]`, which
-- blocks `decide`/`rfl` evaluation of concrete scores; restore reducibility so
-- concrete instances can be settled by evaluation.
set_option allowUnsafeReducibility true
attribute [semireducible] Rat.ofScientific Rat.add Rat.sub Rat.mul Rat.inv Rat.div

/-! ## Character & word primitives -/

/-- Whitespace test used for Python `str.split()` / `str.strip()`. -/
def wsB (c : Char) : Bool := c.isWhitespace

/-- Character-wise lowercasing, modelling Python `str.lower()`. -/
def lc (l : List Char) : List Char := l.map Char.toLower

/-- Worker for `pyWords`: accumulates the current word (reversed) in `acc`. -/
def wordsAux : List Char → List Char → List (List Char)
  | [], acc => if acc.isEmpty then [] else [acc.reverse]
  | c :: cs, acc =>
    if wsB c then
      if acc.isEmpty then wordsAux cs [] else acc.reverse :: wordsAux cs []
    else wordsAux cs (c :: acc)

/-- Python `s.split()`: maximal whitespace-free chunks of `s`. -/
def pyWords (l : List Char) : List (List Char) := wordsAux l []

/-- Python `len(prompt.split())`. -/
def wordCount (s : String) : Nat := (pyWords s.toList).length

/-- Boolean substring containment: Python `pat in hay` for strings. -/
def containsSub (hay pat : List Char) : Bool :=
  match hay with
  | [] => pat.isEmpty
  | _ :: t => pat.isPrefixOf hay || containsSub t pat

/-- Case-insensitive keyword test: Python `w in prompt.lower()` (every lexicon
entry in the source is already lowercase, or is lowercased by the source
before the test, so lowering both sides is faithful). -/
def hasKW (p : String) (w : String) : Bool := containsSub (lc p.toList) (lc w.toList)

/-- Python `sum(1 for w in lexicon if w in prompt.lower())`: number of lexicon
entries that occur (each entry counted at most once, however often it occurs). -/
def countKW (p : String) (ws : List String) : Nat := (ws.filter (hasKW p)).length

/-- Number of start positions at which `pat` occurs in `hay` (used only by the
spec-side per-occurrence reading of the clarity formula). -/
def countOcc (pat : List Char) : List Char → Nat
  | [] => 0
  | c :: t => (if pat.isPrefixOf (c :: t) then 1 else 0) + countOcc pat t

/-- Counts maximal runs of characters satisfying `pred` (left fold carrying
"currently inside a run"). -/
def countRuns (pred : Char → Bool) (l : List Char) : Nat :=
  (l.foldl (fun (st : Bool × Nat) c =>
    if pred c then (true, if st.1 then st.2 else st.2 + 1) else (false, st.2)) (false, 0)).2

/-- Python `len(re.findall(r'\d+', prompt))`: number of maximal digit runs. -/
def digitRuns (s : String) : Nat := countRuns Char.isDigit s.toList

/-- Python `l.strip()` on a character list. -/
def pyStripL (l : List Char) : List Char :=
  ((l.dropWhile wsB).reverse.dropWhile wsB).reverse

/-- Python `s.strip()`. -/
def pyStripStr (s : String) : String := String.mk (pyStripL s.toList)

/-- `len(re.split(r'[.!?]+', prompt.strip()))`: splitting on maximal runs of
sentence punctuation yields one more piece than there are runs. -/
def sentenceCount (p : String) : Nat :=
  countRuns (fun c => c == '.' || c == '!' || c == '?') (pyStripL p.toList) + 1

/-- Python `round(x, 1)` on the exact rationals produced by the analyzer. -/
def roundTo1 (q : ℚ) : ℚ := ((round (10 * q) : ℤ) : ℚ) / 10

/-- Final clamp `max(1.0, min(10.0, score))` shared by all five scorers. -/
def clamp110 (q : ℚ) : ℚ := max 1 (min 10 q)

/-! ## The five lexical scorers (source: `_calculate_*_score`) -/

/-- `_calculate_clarity_score` from `prompt_analyzer.py`. -/
def _calculate_clarity_score (p : String) : ℚ :=
  let word_count := wordCount p
  let base : ℚ :=
    if word_count < 5 then 3.0
    else if word_count < 15 then 5.0
    else if word_count < 50 then 7.0
    else 8.0
  let vague_count := countKW p
    ["thing", "stuff", "something", "anything", "maybe", "perhaps", "might", "kinda", "sorta"]
  let clear_count := countKW p
    ["create", "write", "analyze", "explain", "describe", "list", "compare", "summarize"]
  let s1 := base - (vague_count : ℚ) * 1.0 + (clear_count : ℚ) * 0.5
  let s2 := if p.toList.contains '?' then s1 + 0.5 else s1
  clamp110 s2

/-- `_calculate_specificity_score` from `prompt_analyzer.py`. -/
def _calculate_specificity_score (p : String) : ℚ :=
  let word_count := wordCount p
  let base : ℚ :=
    if word_count < 10 then 3.0
    else if word_count < 30 then 5.0
    else 7.0
  let numbers := digitRuns p
  let s1 := base + min ((numbers : ℚ) * 0.8) 2.0
  let format_count := countKW p
    ["json", "csv", "markdown", "html", "pdf", "bullet points", "numbered list", "table",
     "report", "essay"]
  let s2 := s1 + min ((format_count : ℚ) * 1.0) 2.0
  let domain_count := countKW p
    ["business", "technical", "academic", "marketing", "sales", "finance", "education", "health"]
  let s3 := s2 + min ((domain_count : ℚ) * 0.5) 1.5
  let vague_count := countKW p
    ["help me", "can you", "please do", "make it good", "do something", "fix this"]
  let s4 := s3 - (vague_count : ℚ) * 1.5
  clamp110 s4

/-- `_calculate_context_score` from `prompt_analyzer.py`. -/
def _calculate_context_score (p : String) : ℚ :=
  let word_count := wordCount p
  let base : ℚ :=
    if word_count < 8 then 2.0
    else if word_count < 20 then 4.0
    else if word_count < 50 then 6.0
    else 8.0
  let context_count := countKW p
    ["background", "context", "situation", "purpose", "goal", "because", "since", "for",
     "I need", "I want"]
  let s1 := base + min ((context_count : ℚ) * 0.8) 2.0
  let personal_count := countKW p
    ["I am", "my", "our", "we are", "company", "project", "team"]
  let s2 := s1 + min ((personal_count : ℚ) * 0.3) 1.0
  clamp110 s2

/-- `_calculate_constraint_score` from `prompt_analyzer.py`. -/
def _calculate_constraint_score (p : String) : ℚ :=
  let format_count := countKW p
    ["format as", "write in", "use style", "include", "structure", "organize", "make it"]
  let s1 := (4.0 : ℚ) + min ((format_count : ℚ) * 1.0) 3.0
  let length_count := countKW p
    ["words", "characters", "pages", "paragraphs", "sentences", "bullet points", "brief",
     "detailed", "long", "short"]
  let s2 := s1 + min ((length_count : ℚ) * 0.8) 2.0
  let style_count := countKW p
    ["tone", "style", "formal", "casual", "professional", "friendly", "technical", "simple",
     "advanced"]
  let s3 := s2 + min ((style_count : ℚ) * 0.6) 2.0
  let audience_count := countKW p
    ["for", "audience", "beginner", "expert", "student", "client", "manager"]
  let s4 := s3 + min ((audience_count : ℚ) * 0.5) 1.0
  clamp110 s4

/-- `_calculate_goal_score` from `prompt_analyzer.py`. -/
def _calculate_goal_score (p : String) : ℚ :=
  let action_count := countKW p
    ["create", "write", "analyze", "design", "develop", "build", "generate", "produce",
     "make", "explain", "describe"]
  let s1 := (4.0 : ℚ) + min ((action_count : ℚ) * 1.0) 3.0
  let outcome_count := countKW p
    ["result", "output", "deliverable", "final", "end goal", "objective", "want", "need"]
  let s2 := s1 + min ((outcome_count : ℚ) * 0.8) 2.0
  let intent_count := countKW p
    ["show", "tell", "find", "solve", "fix", "improve", "optimize", "compare"]
  let s3 := s2 + min ((intent_count : ℚ) * 0.6) 1.5
  let unclear_count := countKW p
    ["somehow", "whatever", "anything", "something", "help", "please"]
  let s4 := s3 - (unclear_count : ℚ) * 0.8
  clamp110 s4

/-- `_assess_complexity` from `prompt_analyzer.py`. -/
def _assess_complexity (p : String) : String :=
  let word_count := wordCount p
  if word_count < 20 then "Simple"
  else if word_count < 50 then "Moderate"
  else if word_count < 100 then "Complex"
  else "Advanced"

/-! ## Feedback synthesizer (source: `_identify_*`, `_generate_suggestions`,
`_improve_prompt`) -/

/-- `_identify_strengths` from `prompt_analyzer.py`. -/
def _identify_strengths (p : String)
    (clarity specificity context constraints goal : ℚ) : List String :=
  let strengths :=
    (if clarity ≥ 7 then ["Clear and unambiguous language"] else []) ++
    (if specificity ≥ 7 then ["Specific requirements and details provided"] else []) ++
    (if context ≥ 7 then ["Sufficient background context"] else []) ++
    (if constraints ≥ 7 then ["Well-defined formatting and style constraints"] else []) ++
    (if goal ≥ 7 then ["Clear goal and desired outcome"] else []) ++
    (if wordCount p > 50 then ["Comprehensive and detailed prompt"] else []) ++
    (if ["include", "format", "structure"].any (hasKW p) then
      ["Good structural guidance provided"] else [])
  let strengths := if strengths.isEmpty then ["Basic prompt structure in place"] else strengths
  strengths.take 5

/-- `_identify_weaknesses` from `prompt_analyzer.py`. -/
def _identify_weaknesses (p : String)
    (clarity specificity context constraints goal : ℚ) : List String :=
  let weaknesses :=
    (if clarity < 6 then ["Language could be clearer and less ambiguous"] else []) ++
    (if specificity < 6 then ["Needs more specific requirements and details"] else []) ++
    (if context < 6 then ["Lacks sufficient background context"] else []) ++
    (if constraints < 6 then ["Missing clear formatting and style guidelines"] else []) ++
    (if goal < 6 then ["Desired outcome could be more clearly defined"] else []) ++
    (if wordCount p < 15 then ["Prompt is too brief and lacks detail"] else []) ++
    (if ["thing", "stuff", "good", "nice", "help"].any (hasKW p) then
      ["Contains vague language that could be more specific"] else [])
  let weaknesses :=
    if weaknesses.isEmpty then ["Minor improvements possible in overall clarity"] else weaknesses
  weaknesses.take 5

/-- Case-sensitive substring test on two Lean strings: Python `pat in s`. -/
def strContains (s pat : String) : Bool := containsSub s.toList pat.toList

/-- The `elif` chain inside `_generate_suggestions`: at most one canned
suggestion per weakness string. -/
def suggestionFor (w : String) : List String :=
  if strContains w "clearer" || strContains w "ambiguous" then
    ["Replace vague terms with specific, concrete language"]
  else if strContains w "specific" || strContains w "details" then
    ["Add specific numbers, formats, or measurable criteria"]
  else if strContains w "context" then
    ["Provide background information about your situation or goals"]
  else if strContains w "formatting" || strContains w "guidelines" then
    ["Specify desired output format (length, style, structure)"]
  else if strContains w "outcome" || strContains w "goal" then
    ["Clearly state what success looks like for this task"]
  else if strContains w "brief" || strContains w "detail" then
    ["Expand the prompt with more context and requirements"]
  else if strContains w "vague" then
    ["Replace general terms with specific, actionable language"]
  else []

/-- `_generate_suggestions` from `prompt_analyzer.py` (the `prompt` parameter
is unused by the source body as well). -/
def _generate_suggestions (_p : String) (weaknesses : List String) : List String :=
  let suggestions := weaknesses.flatMap suggestionFor
  let suggestions :=
    if suggestions.isEmpty then
      ["Consider adding more specific details about your requirements",
       "Include context about your intended audience or use case",
       "Specify the desired format and length of the output"]
    else suggestions
  suggestions.take 5

/-- The fixed text of the short-prompt template in `_improve_prompt`: everything
the f-string places after `{prompt}` (the f-string also puts a single `\n`
before `{prompt}`, and the whole template is `.strip()`-ped). -/
def templateTail : String :=
  "\n\nPlease provide a comprehensive response that includes:\n- Clear explanations with specific examples\n- Structured format with headings or bullet points\n- Relevant context and background information\n- Actionable insights or recommendations\n- Sources or references where applicable\n\nTarget length: 200-500 words\nTone: Professional and informative\n"

/-- `_improve_prompt` from `prompt_analyzer.py` (the source ignores the
`weaknesses` argument). -/
def _improve_prompt (p : String) (_weaknesses : List String) : String :=
  if wordCount p < 15 then
    pyStripStr ("\n" ++ p ++ templateTail)
  else
    let a1 : String :=
      if !(hasKW p "format") then
        "\n\nPlease format your response with clear headings and structure."
      else ""
    let a2 : String :=
      if !(["words", "length", "brief", "detailed"].any (hasKW p)) then
        " Aim for a comprehensive response of 300-500 words."
      else ""
    p ++ a1 ++ a2

/-! ## Parsed JSON values and Python dynamic-typing primitives -/

/-- A parsed JSON value as produced by Python `json.loads`: objects are
association lists (a `dict` has unique keys; the model does not rely on
uniqueness).  JSON `true`/`false` become Python `bool`, which is a subclass of
`int` — see `pyIsNum` / `toNumVal`. -/
inductive JValue where
  | null : JValue
  | bool (b : Bool) : JValue
  | num (q : ℚ) : JValue
  | str (s : String) : JValue
  | arr (xs : List JValue) : JValue
  | obj (kvs : List (String × JValue)) : JValue

/-- Python `k in d` for a dict. -/
def dictContains (d : List (String × JValue)) (k : String) : Bool :=
  d.any (fun kv => kv.1 == k)

/-- Python `d[k]` lookup (first matching key). -/
def dictGet? (d : List (String × JValue)) (k : String) : Option JValue :=
  (d.find? (fun kv => kv.1 == k)).map (fun kv => kv.2)

/-- Python `d.get(k, default)`. -/
def dictGetD (d : List (String × JValue)) (k : String) (v : JValue) : JValue :=
  (dictGet? d k).getD v

/-- Python `k in v` for an arbitrary value `v` and string `k`:
key lookup for dicts, substring test for strings, element equality for lists;
`none` models the `TypeError` raised for the remaining types. -/
def pyContains (v : JValue) (k : String) : Option Bool :=
  match v with
  | .obj kvs => some (dictContains kvs k)
  | .str s => some (containsSub s.toList k.toList)
  | .arr xs => some (xs.any (fun x => match x with | .str t => t == k | _ => false))
  | _ => none

/-- Python `all(key in v for key in keys)`: short-circuits on the first
failing key; `none` propagates a `TypeError` from `pyContains`. -/
def allContainsSeq (v : JValue) : List String → Option Bool
  | [] => some true
  | k :: ks =>
    match pyContains v k with
    | none => none
    | some false => some false
    | some true => allContainsSeq v ks

/-- Python `isinstance(x, (int, float))` — true for `bool` as well, since
Python's `bool` is a subclass of `int`. -/
def pyIsNum : JValue → Bool
  | .num _ => true
  | .bool _ => true
  | _ => false

/-- Numeric value of an int/float/bool (`True == 1`, `False == 0`); the value
is only consulted where `pyIsNum` already holds. -/
def toNumVal : JValue → ℚ
  | .num q => q
  | .bool b => if b then 1 else 0
  | _ => 0

/-- Python `x == q` for a float constant `q`: numeric comparison for
int/float/bool, `False` (without raising) for every other type. -/
def pyEqNum (v : JValue) (q : ℚ) : Bool :=
  match v with
  | .num r => r == q
  | .bool b => (if b then (1 : ℚ) else 0) == q
  | _ => false

/-- Python truthiness test `not x` (the `falsy` side). -/
def pyFalsy : JValue → Bool
  | .null => true
  | .bool b => !b
  | .num q => q == 0
  | .str s => s.isEmpty
  | .arr xs => xs.isEmpty
  | .obj kvs => kvs.isEmpty

/-- The in-place unwrapping applied to each score inside
`_validate_ai_response`: a single-element list is replaced by its element. -/
def unwrapScore : JValue → JValue
  | .arr [x] => x
  | v => v

/-! ## External-response validator, plausibility check, arbiter -/

/-- The three fixed key lists of `_validate_ai_response`. -/
def required_keys : List String := ["scores", "analysis", "improved_prompt", "confidence"]

def score_keys : List String :=
  ["clarity", "specificity", "context", "constraints", "goal_orientation", "overall"]

def analysis_keys : List String := ["strengths", "weaknesses", "suggestions"]

/-- `_validate_ai_response` from `prompt_analyzer.py`, on an arbitrary parsed
value (`json.loads` can yield a non-dict).  `none` models an uncaught
exception inside the function (e.g. `key in 5` raising `TypeError`, or
`.get` / `.items()` on a non-dict raising `AttributeError`); the caller
`_get_ai_analysis` catches every exception.  The result `some b` is the
returned boolean. -/
def _validate_ai_response (v : JValue) : Option Bool :=
  match allContainsSeq v required_keys with
  | none => none
  | some false => some false
  | some true =>
    match v with
    | .obj kvs =>
      let scores := dictGetD kvs "scores" (.obj [])
      match allContainsSeq scores score_keys with
      | none => none
      | some false => some false
      | some true =>
        let analysis := dictGetD kvs "analysis" (.obj [])
        match allContainsSeq analysis analysis_keys with
        | none => none
        | some false => some false
        | some true =>
          match scores with
          | .obj skvs =>
            -- the `for key, score in scores.items()` loop: unwrap then
            -- isinstance + range check, returning False at the first failure
            if skvs.all (fun kv =>
                let s := unwrapScore kv.2
                pyIsNum s && (1 ≤ toNumVal s && toNumVal s ≤ 10)) then
              let confidence := dictGetD kvs "confidence" (.num 0)
              some (pyIsNum confidence && (0 ≤ toNumVal confidence && toNumVal confidence ≤ 1))
            else some false
          | _ => none  -- `scores.items()` raises on a non-dict
    | _ => none  -- `response.get(...)` raises on a non-dict

/-- The in-place mutation `_validate_ai_response` performs on a response that
passes validation: every score entry has any single-element list unwrapped
(`scores[key] = score`).  Validation success forces `scores` to be a dict. -/
def mutateScores (v : JValue) : JValue :=
  match v with
  | .obj kvs =>
    .obj (kvs.map (fun kv =>
      if kv.1 == "scores" then
        (kv.1,
          match kv.2 with
          | .obj skvs => .obj (skvs.map (fun sk => (sk.1, unwrapScore sk.2)))
          | s => s)
      else kv))
  | v => v

/-- `_is_valid_ai_analysis` from `prompt_analyzer.py` (the plausibility
check).  `none` models an uncaught exception (`.get` on a non-dict); in the
arbiter it is only applied to values that passed validation, where it cannot
raise (`_is_valid_ne_none_of_validated`). -/
def _is_valid_ai_analysis (v : JValue) : Option Bool :=
  if pyFalsy v then some false
  else
    match v with
    | .obj kvs =>
      match dictGetD kvs "scores" (.obj []) with
      | .obj skvs =>
        let overall := dictGetD skvs "overall" (.num 0)
        -- `if overall_score == 5.0 or (5.5 <= overall_score <= 5.7):`
        if pyEqNum overall 5.0 then
          some (!(pyEqNum (dictGetD kvs "confidence" (.num 0)) 0.7))
        else
          match overall with
          | .num q =>
            if 5.5 ≤ q ∧ q ≤ 5.7 then
              some (!(pyEqNum (dictGetD kvs "confidence" (.num 0)) 0.7))
            else some true
          | .bool b =>
            if 5.5 ≤ (if b then (1 : ℚ) else 0) ∧ (if b then (1 : ℚ) else 0) ≤ 5.7 then
              some (!(pyEqNum (dictGetD kvs "confidence" (.num 0)) 0.7))
            else some true
          | _ => none  -- `5.5 <= overall` raises TypeError on non-numeric types
      | _ => none  -- `scores.get(...)` raises on a non-dict
    | _ => none  -- `ai_analysis.get(...)` raises on a truthy non-dict

/-- Outcome of the injected external generation capability, at the granularity
at which `_get_ai_analysis` consumes it: the call raises (any exception from
service construction or `generate_response`), the returned text yields no
parseable JSON value (`json.JSONDecodeError`), or it parses to the value
carried by `parsed` (after the source's code-fence stripping and brace
extraction). -/
inductive ExtBehavior where
  | raises : ExtBehavior
  | unparseable : ExtBehavior
  | parsed (v : JValue) : ExtBehavior

/-- `_get_ai_analysis` from `prompt_analyzer.py`: returns the parsed response
(mutated in place by validation) when `_validate_ai_response` returns `True`,
and `None` otherwise — every exception and every validation failure is caught
and becomes `None`. -/
def _get_ai_analysis (b : ExtBehavior) : Option JValue :=
  match b with
  | .raises => none
  | .unparseable => none
  | .parsed v =>
    match _validate_ai_response v with
    | some true => some (mutateScores v)
    | _ => none

/-- `AnalysisMetrics` from `prompt_analyzer.py`.  The six score fields hold
whatever values the chosen analysis dict supplied (Python does not enforce the
`float` annotations), hence `JValue`. -/
structure AnalysisMetrics where
  clarity_score : JValue
  specificity_score : JValue
  context_score : JValue
  constraint_score : JValue
  goal_orientation_score : JValue
  overall_score : JValue
  word_count : Nat
  sentence_count : Nat
  complexity_level : String

/-- `AnalysisResult` from `prompt_analyzer.py` (same remark on field types). -/
structure AnalysisResult where
  metrics : AnalysisMetrics
  strengths : JValue
  weaknesses : JValue
  suggestions : JValue
  improved_prompt : JValue
  confidence_level : JValue

/-- `_rule_based_analysis` from `prompt_analyzer.py`: the heuristic fallback
analysis, returned as the same dict shape the external path produces.  Debug
printing from the source is pure side effect and is not modelled. -/
def _rule_based_analysis (p : String) : JValue :=
  let clarity_score := _calculate_clarity_score p
  let specificity_score := _calculate_specificity_score p
  let context_score := _calculate_context_score p
  let constraint_score := _calculate_constraint_score p
  let goal_score := _calculate_goal_score p
  let overall_score :=
    (clarity_score + specificity_score + context_score + constraint_score + goal_score) / 5
  let strengths :=
    _identify_strengths p clarity_score specificity_score context_score constraint_score goal_score
  let weaknesses :=
    _identify_weaknesses p clarity_score specificity_score context_score constraint_score goal_score
  let suggestions := _generate_suggestions p weaknesses
  let improved_prompt := _improve_prompt p weaknesses
  .obj [
    ("scores", .obj [
      ("clarity", .num (roundTo1 clarity_score)),
      ("specificity", .num (roundTo1 specificity_score)),
      ("context", .num (roundTo1 context_score)),
      ("constraints", .num (roundTo1 constraint_score)),
      ("goal_orientation", .num (roundTo1 goal_score)),
      ("overall", .num (roundTo1 overall_score))]),
    ("analysis", .obj [
      ("strengths", .arr (strengths.map JValue.str)),
      ("weaknesses", .arr (weaknesses.map JValue.str)),
      ("suggestions", .arr (suggestions.map JValue.str))]),
    ("improved_prompt", .str improved_prompt),
    ("confidence", .num 0.7)]

/-- The tail of `comprehensive_analysis`: building the `AnalysisResult` from
the chosen analysis dict via `.get` chains.  `none` models the
`AttributeError` raised when `.get` is applied to a non-dict (possible for an
accepted external response whose `"analysis"` entry is a string or list that
passed the membership check). -/
def buildResult (p : String) (ai : JValue) : Option AnalysisResult :=
  match ai with
  | .obj kvs =>
    match dictGetD kvs "scores" (.obj []) with
    | .obj skvs =>
      match dictGetD kvs "analysis" (.obj []) with
      | .obj akvs =>
        some {
          metrics := {
            clarity_score := dictGetD skvs "clarity" (.num 5)
            specificity_score := dictGetD skvs "specificity" (.num 5)
            context_score := dictGetD skvs "context" (.num 5)
            constraint_score := dictGetD skvs "constraints" (.num 5)
            goal_orientation_score := dictGetD skvs "goal_orientation" (.num 5)
            overall_score := dictGetD skvs "overall" (.num 5)
            word_count := wordCount p
            sentence_count := sentenceCount p
            complexity_level := _assess_complexity p }
          strengths := dictGetD akvs "strengths" (.arr [])
          weaknesses := dictGetD akvs "weaknesses" (.arr [])
          suggestions := dictGetD akvs "suggestions" (.arr [])
          improved_prompt := dictGetD kvs "improved_prompt" (.str p)
          confidence_level := dictGetD kvs "confidence" (.num 0.5) }
      | _ => none
    | _ => none
  | _ => none

/-- `comprehensive_analysis` from `prompt_analyzer.py` (the Arbiter), with the
external capability's behavior injected as `b`.  `none` models an uncaught
exception propagating to the caller. -/
def comprehensive_analysis (b : ExtBehavior) (p : String) : Option AnalysisResult :=
  match _get_ai_analysis b with
  | none => buildResult p (_rule_based_analysis p)
  | some v =>
    -- `if not ai_analysis or not self._is_valid_ai_analysis(ai_analysis):`
    if pyFalsy v then buildResult p (_rule_based_analysis p)
    else
      match _is_valid_ai_analysis v with
      | none => none
      | some true => buildResult p v
      | some false => buildResult p (_rule_based_analysis p)

/-! ## Derived / spec-side definitions used to state the claims -/

/-- The `AnalysisResult` produced by the heuristic fallback path: the record
`comprehensive_analysis` builds when the chosen analysis is
`_rule_based_analysis p` (proved equal to that path in `buildResult_rule`). -/
def fallbackResult (p : String) : AnalysisResult :=
  let weaknesses := _identify_weaknesses p (_calculate_clarity_score p)
    (_calculate_specificity_score p) (_calculate_context_score p)
    (_calculate_constraint_score p) (_calculate_goal_score p)
  { metrics := {
      clarity_score := .num (roundTo1 (_calculate_clarity_score p))
      specificity_score := .num (roundTo1 (_calculate_specificity_score p))
      context_score := .num (roundTo1 (_calculate_context_score p))
      constraint_score := .num (roundTo1 (_calculate_constraint_score p))
      goal_orientation_score := .num (roundTo1 (_calculate_goal_score p))
      overall_score := .num (roundTo1 ((_calculate_clarity_score p +
        _calculate_specificity_score p + _calculate_context_score p +
        _calculate_constraint_score p + _calculate_goal_score p) / 5))
      word_count := wordCount p
      sentence_count := sentenceCount p
      complexity_level := _assess_complexity p }
    strengths := .arr ((_identify_strengths p (_calculate_clarity_score p)
      (_calculate_specificity_score p) (_calculate_context_score p)
      (_calculate_constraint_score p) (_calculate_goal_score p)).map JValue.str)
    weaknesses := .arr (weaknesses.map JValue.str)
    suggestions := .arr ((_generate_suggestions p weaknesses).map JValue.str)
    improved_prompt := .str (_improve_prompt p weaknesses)
    confidence_level := .num 0.7 }

/-- The external path was accepted by the Arbiter: the generation call
produced a parseable value that passed both validation and the plausibility
check.  Its complement is exactly the union of the four failure modes of C1. -/
def acceptedExternal (b : ExtBehavior) : Prop :=
  ∃ v, b = .parsed v ∧ _validate_ai_response v = some true ∧
    _is_valid_ai_analysis (mutateScores v) = some true

/-- Whether the Arbiter's result came from the fallback path (`True`) rather
than from an accepted external analysis. -/
def usedFallback (b : ExtBehavior) : Bool :=
  match _get_ai_analysis b with
  | none => true
  | some v => pyFalsy v || !(_is_valid_ai_analysis v == some true)

/-- Lookup in a JSON object (`none` for non-objects / missing key). -/
def jGet (v : JValue) (k : String) : Option JValue :=
  match v with
  | .obj kvs => dictGet? kvs k
  | _ => none

/-- Length of a JSON array (0 for non-arrays). -/
def jvLen : JValue → Nat
  | .arr xs => xs.length
  | _ => 0

/-- The value stored under `scores → overall` of an analysis dict. -/
def overallOf (v : JValue) : JValue :=
  match v with
  | .obj kvs =>
    match dictGet? kvs "scores" with
    | some (.obj skvs) => dictGetD skvs "overall" (.num 0)
    | _ => .num 0
  | _ => .num 0

/-- The value stored under `confidence` of an analysis dict. -/
def confidenceOf (v : JValue) : JValue :=
  match v with
  | .obj kvs => dictGetD kvs "confidence" (.num 0)
  | _ => .num 0

/-- Claim C3's validation predicate, written from the spec's words: the four
top-level keys; `scores` a mapping with the six keys, every score value (after
unwrapping a single-element sequence) a *number* in [1,10]; `analysis` a
mapping with the three keys; `confidence` a *number* in [0,1]. -/
def specValidate (v : JValue) : Bool :=
  match v with
  | .obj kvs =>
    required_keys.all (dictContains kvs) &&
    (match dictGet? kvs "scores" with
     | some (.obj skvs) =>
       score_keys.all (dictContains skvs) &&
       skvs.all (fun kv =>
         match unwrapScore kv.2 with
         | .num q => 1 ≤ q && q ≤ 10
         | _ => false)
     | _ => false) &&
    (match dictGet? kvs "analysis" with
     | some (.obj akvs) => analysis_keys.all (dictContains akvs)
     | _ => false) &&
    (match dictGet? kvs "confidence" with
     | some (.num c) => 0 ≤ c && c ≤ 1
     | _ => false)
  | _ => false

/-- The corrected validation predicate: like `specValidate` but with Python's
actual semantics — score and confidence values may be `int`, `float` *or
`bool`* (`True` counting as 1, `False` as 0), and the `analysis` entry only
has to contain the three names under Python `in` semantics (mapping key,
substring of a string, element of a list). -/
def specValidateAmended (v : JValue) : Bool :=
  match v with
  | .obj kvs =>
    required_keys.all (dictContains kvs) &&
    (match dictGet? kvs "scores" with
     | some (.obj skvs) =>
       score_keys.all (dictContains skvs) &&
       skvs.all (fun kv =>
         pyIsNum (unwrapScore kv.2) &&
         (1 ≤ toNumVal (unwrapScore kv.2) && toNumVal (unwrapScore kv.2) ≤ 10))
     | _ => false) &&
    (match dictGet? kvs "analysis" with
     | some a =>
       (match a with
        | .obj _ => true | .str _ => true | .arr _ => true | _ => false) &&
       analysis_keys.all (fun k => (pyContains a k).getD false)
     | none => false) &&
    (match dictGet? kvs "confidence" with
     | some c => pyIsNum c && (0 ≤ toNumVal c && toNumVal c ≤ 1)
     | none => false)
  | _ => false

/-- Claim C4's suspicion condition, from the spec's words: the (unwrapped)
overall score equals 5.0 or lies in [5.5, 5.7], and the confidence equals
exactly 0.7. -/
def specSuspicious (v : JValue) : Bool :=
  let ov := toNumVal (unwrapScore (overallOf v))
  let cf := toNumVal (confidenceOf v)
  (ov == 5 || (5.5 ≤ ov && ov ≤ 5.7)) && cf == 0.7

/-- Total number of occurrences (start positions, case-insensitive) of the
lexicon entries in the prompt. -/
def occTotal (p : String) (ws : List String) : Nat :=
  (ws.map (fun w => countOcc (lc w.toList) (lc p.toList))).sum

/-- Claim C6's clarity formula read literally from the spec's words: −1.0 per
*occurrence* of a vague word and +0.5 per *occurrence* of a clear action word
(so a word occurring twice counts twice). -/
def clarity_score_spec_occurrences (p : String) : ℚ :=
  let word_count := wordCount p
  let base : ℚ :=
    if word_count < 5 then 3.0
    else if word_count < 15 then 5.0
    else if word_count < 50 then 7.0
    else 8.0
  clamp110 (base -
    (occTotal p ["thing", "stuff", "something", "anything", "maybe", "perhaps", "might",
      "kinda", "sorta"] : ℚ) * 1.0 +
    (occTotal p ["create", "write", "analyze", "explain", "describe", "list", "compare",
      "summarize"] : ℚ) * 0.5 +
    (if p.toList.contains '?' then 0.5 else 0))

/-- The corrected clarity formula: each lexicon entry is counted at most once
(presence as a substring), not once per occurrence. -/
def clarity_score_spec_presence (p : String) : ℚ :=
  let word_count := wordCount p
  let base : ℚ :=
    if word_count < 5 then 3.0
    else if word_count < 15 then 5.0
    else if word_count < 50 then 7.0
    else 8.0
  clamp110 (base -
    (countKW p ["thing", "stuff", "something", "anything", "maybe", "perhaps", "might",
      "kinda", "sorta"] : ℚ) * 1.0 +
    (countKW p ["create", "write", "analyze", "explain", "describe", "list", "compare",
      "summarize"] : ℚ) * 0.5 +
    (if p.toList.contains '?' then 0.5 else 0))

/-- `q` is an integer multiple of 1/10 (all heuristic scores are). -/
def IsTenth (q : ℚ) : Prop := ∃ n : ℤ, q = (n : ℚ) / 10

/-! ## Concrete external responses used as witnesses / counterexamples -/

/-- A parsed external response whose scores are the boolean `true`, whose
`analysis` entry is a *string* containing the three required names, and whose
confidence is the boolean `True`.  Python accepts it (bool passes
`isinstance(·, (int, float))` with `True == 1`, and `in` on a string is a
substring test). -/
def exRespBoolScores : JValue :=
  .obj [
    ("scores", .obj [
      ("clarity", .bool true), ("specificity", .bool true), ("context", .bool true),
      ("constraints", .bool true), ("goal_orientation", .bool true), ("overall", .bool true)]),
    ("analysis", .str "strengths weaknesses suggestions"),
    ("improved_prompt", .str "x"),
    ("confidence", .bool true)]

/-- A well-formed external response with overall 6.2 and confidence 0.85
(the plausibility check accepts it). -/
def exRespPlausible : JValue :=
  .obj [
    ("scores", .obj [
      ("clarity", .num 7), ("specificity", .num 6), ("context", .num 6),
      ("constraints", .num 5), ("goal_orientation", .num 7), ("overall", .num 6.2)]),
    ("analysis", .obj [
      ("strengths", .arr [.str "s1"]), ("weaknesses", .arr [.str "w1"]),
      ("suggestions", .arr [.str "g1"])]),
    ("improved_prompt", .str "better prompt"),
    ("confidence", .num 0.85)]

/-- A well-formed external response with overall 8.0 and confidence exactly
0.7: the plausibility check still accepts it because the overall score is
outside the suspicious range. -/
def exRespConf07 : JValue :=
  .obj [
    ("scores", .obj [
      ("clarity", .num 8), ("specificity", .num 8), ("context", .num 8),
      ("constraints", .num 8), ("goal_orientation", .num 8), ("overall", .num 8)]),
    ("analysis", .obj [
      ("strengths", .arr [.str "s1"]), ("weaknesses", .arr [.str "w1"]),
      ("suggestions", .arr [.str "g1"])]),
    ("improved_prompt", .str "better prompt"),
    ("confidence", .num 0.7)]

/-- A well-formed, accepted external response carrying six strengths: nothing
in the pipeline truncates it. -/
def exRespSixStrengths : JValue :=
  .obj [
    ("scores", .obj [
      ("clarity", .num 8), ("specificity", .num 8), ("context", .num 8),
      ("constraints", .num 8), ("goal_orientation", .num 8), ("overall", .num 8)]),
    ("analysis", .obj [
      ("strengths", .arr [.str "s1", .str "s2", .str "s3", .str "s4", .str "s5", .str "s6"]),
      ("weaknesses", .arr [.str "w1"]),
      ("suggestions", .arr [.str "g1"])]),
    ("improved_prompt", .str "better prompt"),
    ("confidence", .num 0.9)]

/-- An external response delivering every score as the boolean `true` and a
numeric confidence — the witness instance of C10. -/
def exRespAllBoolTrue : JValue :=
  .obj [
    ("scores", .obj [
      ("clarity", .bool true), ("specificity", .bool true), ("context", .bool true),
      ("constraints", .bool true), ("goal_orientation", .bool true), ("overall", .bool true)]),
    ("analysis", .obj [
      ("strengths", .arr [.str "s1"]), ("weaknesses", .arr [.str "w1"]),
      ("suggestions", .arr [.str "g1"])]),
    ("improved_prompt", .str "x"),
    ("confidence", .num 0.9)]

/-! ## Lemmas about the dictionary primitives -/

theorem dictContains_eq_isSome (d : List (String × JValue)) (k : String) :
    dictContains d k = (dictGet? d k).isSome := by
  induction d with
  | nil => rfl
  | cons kv t ih =>
    simp only [dictContains, List.any_cons, dictGet?, List.find?_cons]
    cases h : (kv.1 == k) <;> simp_all [dictContains, dictGet?]

theorem dictContains_true_exists {d : List (String × JValue)} {k : String}
    (h : dictContains d k = true) : ∃ val, dictGet? d k = some val := by
  rw [dictContains_eq_isSome] at h
  exact Option.isSome_iff_exists.mp h

theorem dictGetD_of_get? {d : List (String × JValue)} {k : String} {val dflt : JValue}
    (h : dictGet? d k = some val) : dictGetD d k dflt = val := by
  simp [dictGetD, h]

theorem allContainsSeq_obj (kvs : List (String × JValue)) (keys : List String) :
    allContainsSeq (.obj kvs) keys = some (keys.all (dictContains kvs)) := by
  induction keys with
  | nil => rfl
  | cons k ks ih =>
    simp only [allContainsSeq, pyContains, List.all_cons]
    cases h : dictContains kvs k <;> simp [h, ih]

theorem allContainsSeq_str (s : String) (keys : List String) :
    allContainsSeq (.str s) keys =
      some (keys.all (fun k => containsSub s.toList k.toList)) := by
  induction keys with
  | nil => rfl
  | cons k ks ih =>
    simp only [allContainsSeq, pyContains, List.all_cons]
    cases h : containsSub s.toList k.toList <;> simp [h, ih]

theorem allContainsSeq_arr (xs : List JValue) (keys : List String) :
    allContainsSeq (.arr xs) keys =
      some (keys.all (fun k =>
        xs.any (fun x => match x with | .str t => t == k | _ => false))) := by
  induction keys with
  | nil => rfl
  | cons k ks ih =>
    simp only [allContainsSeq, pyContains, List.all_cons]
    cases h : xs.any (fun x => match x with | .str t => t == k | _ => false) <;> simp [h, ih]

theorem allContainsSeq_eq_getD (v : JValue)
    (hshape : (match v with
      | JValue.obj _ => true | JValue.str _ => true | JValue.arr _ => true
      | _ => false) = true) (keys : List String) :
    allContainsSeq v keys = some (keys.all (fun k => (pyContains v k).getD false)) := by
  cases v with
  | obj kvs => rw [allContainsSeq_obj]; rfl
  | str s => rw [allContainsSeq_str]; rfl
  | arr xs => rw [allContainsSeq_arr]; rfl
  | null => exact absurd hshape (by simp)
  | bool b => exact absurd hshape (by simp)
  | num q => exact absurd hshape (by simp)

theorem allContainsSeq_stuck (v : JValue)
    (hshape : (match v with
      | JValue.obj _ => true | JValue.str _ => true | JValue.arr _ => true
      | _ => false) = false) (keys : List String) (hk : keys ≠ []) :
    allContainsSeq v keys = none := by
  cases keys with
  | nil => exact absurd rfl hk
  | cons k ks => cases v <;> simp_all [allContainsSeq, pyContains]

/-! ## Characterization of the validator -/

theorem validate_char (v : JValue) :
    _validate_ai_response v = some true ↔ specValidateAmended v = true := by
  cases v with
  | null => simp [_validate_ai_response, specValidateAmended, allContainsSeq, pyContains, required_keys]
  | bool b => simp [_validate_ai_response, specValidateAmended, allContainsSeq, pyContains, required_keys]
  | num q => simp [_validate_ai_response, specValidateAmended, allContainsSeq, pyContains, required_keys]
  | str s =>
    rw [_validate_ai_response, allContainsSeq_str]
    · cases h : (required_keys.all (fun k => containsSub s.toList k.toList)) with
      | false => simp [specValidateAmended]
      | true => simp [specValidateAmended]
    · exact fun skvs h => JValue.noConfusion h
  | arr xs =>
    rw [_validate_ai_response, allContainsSeq_arr]
    · cases h : (required_keys.all (fun k =>
          xs.any (fun x => match x with | .str t => t == k | _ => false))) with
      | false => simp [specValidateAmended]
      | true => simp [specValidateAmended]
    · exact fun skvs h => JValue.noConfusion h
  | obj kvs =>
    rw [_validate_ai_response, allContainsSeq_obj]
    cases h1 : (required_keys.all (dictContains kvs)) with
    | false => simp [specValidateAmended, h1]
    | true =>
      have h1' := h1
      simp only [required_keys, List.all_cons, List.all_nil, Bool.and_eq_true,
        Bool.and_true] at h1'
      obtain ⟨hcs, hca, hci, hcc⟩ := h1'
      obtain ⟨sv, hsv⟩ := dictContains_true_exists hcs
      obtain ⟨av, hav⟩ := dictContains_true_exists hca
      obtain ⟨cv, hcv⟩ := dictContains_true_exists hcc
      rw [dictGetD_of_get? hsv, dictGetD_of_get? hav]
      simp only [specValidateAmended, h1, hsv, hav, hcv, Bool.true_and]
      cases sv with
      | obj skvs =>
        rw [allContainsSeq_obj]
        cases h2 : (score_keys.all (dictContains skvs)) with
        | false => simp [h2]
        | true =>
          simp only [Bool.true_and]
          cases hAshape : (match av with
            | JValue.obj _ => true | JValue.str _ => true | JValue.arr _ => true
            | _ => false) with
          | false =>
            rw [allContainsSeq_stuck av hAshape analysis_keys (by simp [analysis_keys])]
            simp [hAshape]
          | true =>
            rw [allContainsSeq_eq_getD av hAshape]
            cases h3 : (analysis_keys.all (fun k => (pyContains av k).getD false)) with
            | false => simp [h3]
            | true =>
              simp only [hAshape, h3, Bool.true_and, Bool.and_true]
              cases h4 : (skvs.all (fun kv =>
                  pyIsNum (unwrapScore kv.2) &&
                  (decide (1 ≤ toNumVal (unwrapScore kv.2)) &&
                   decide (toNumVal (unwrapScore kv.2) ≤ 10)))) with
              | false => simp [h4]
              | true =>
                rw [dictGetD_of_get? hcv]
                simp [h4, h2]
      | str s2 =>
        rw [allContainsSeq_str]
        rcases h2 : (score_keys.all (fun k => containsSub s2.toList k.toList)) with _ | _
        · simp
        · rcases hY : allContainsSeq av analysis_keys with _ | yb
          · simp
          · rcases yb with _ | _ <;> simp
      | arr xs2 =>
        rw [allContainsSeq_arr]
        rcases h2 : (score_keys.all (fun k =>
            xs2.any (fun x => match x with | .str t => t == k | _ => false))) with _ | _
        · simp
        · rcases hY : allContainsSeq av analysis_keys with _ | yb
          · simp
          · rcases yb with _ | _ <;> simp
      | null =>
        rw [allContainsSeq_stuck _ (by simp) score_keys (by simp [score_keys])]; simp
      | bool b =>
        rw [allContainsSeq_stuck _ (by simp) score_keys (by simp [score_keys])]; simp
      | num q =>
        rw [allContainsSeq_stuck _ (by simp) score_keys (by simp [score_keys])]; simp

theorem validated_destruct {v : JValue} (h : _validate_ai_response v = some true) :
    ∃ kvs skvs,
      v = .obj kvs ∧
      dictGet? kvs "scores" = some (.obj skvs) ∧
      score_keys.all (dictContains skvs) = true ∧
      (∀ kv ∈ skvs, pyIsNum (unwrapScore kv.2) = true ∧
        1 ≤ toNumVal (unwrapScore kv.2) ∧ toNumVal (unwrapScore kv.2) ≤ 10) ∧
      ∃ c, dictGet? kvs "confidence" = some c ∧ pyIsNum c = true ∧
        0 ≤ toNumVal c ∧ toNumVal c ≤ 1 := by
  rw [validate_char] at h
  cases v with
  | obj kvs =>
    simp only [specValidateAmended, Bool.and_eq_true] at h
    obtain ⟨⟨⟨hreq, hsc⟩, han⟩, hcf⟩ := h
    refine ⟨kvs, ?_⟩
    cases hq : dictGet? kvs "scores" with
    | none => rw [hq] at hsc; exact absurd hsc (by simp)
    | some sv =>
      rw [hq] at hsc
      cases sv with
      | obj skvs =>
        simp only [Bool.and_eq_true] at hsc
        obtain ⟨hsk, hall⟩ := hsc
        cases hk : dictGet? kvs "confidence" with
        | none => rw [hk] at hcf; exact absurd hcf (by simp)
        | some c =>
          rw [hk] at hcf
          simp only [Bool.and_eq_true, decide_eq_true_eq] at hcf
          rw [List.all_eq_true] at hall
          simp only [Bool.and_eq_true, decide_eq_true_eq] at hall
          refine ⟨skvs, rfl, rfl, hsk, ?_, c, rfl, hcf.1, hcf.2.1, hcf.2.2⟩
          intro kv hkv
          have h5 := hall kv hkv
          exact ⟨h5.1, h5.2.1, h5.2.2⟩
      | null => exact absurd hsc (by simp)
      | bool b => exact absurd hsc (by simp)
      | num q => exact absurd hsc (by simp)
      | str s => exact absurd hsc (by simp)
      | arr xs => exact absurd hsc (by simp)
  | null => exact absurd h (by simp [specValidateAmended])
  | bool b => exact absurd h (by simp [specValidateAmended])
  | num q => exact absurd h (by simp [specValidateAmended])
  | str s => exact absurd h (by simp [specValidateAmended])
  | arr xs => exact absurd h (by simp [specValidateAmended])

theorem dictGet?_mutateList (kvs : List (String × JValue)) (k : String) :
    dictGet? (kvs.map (fun kv =>
      if kv.1 == "scores" then
        (kv.1, match kv.2 with
          | JValue.obj skvs => JValue.obj (skvs.map (fun sk => (sk.1, unwrapScore sk.2)))
          | s => s)
      else kv)) k =
    (dictGet? kvs k).map (fun sv =>
      if k == "scores" then
        match sv with
        | JValue.obj skvs => JValue.obj (skvs.map (fun sk => (sk.1, unwrapScore sk.2)))
        | s => s
      else sv) := by
  induction kvs with
  | nil => rfl
  | cons kv t ih =>
    simp only [List.map_cons, dictGet?, List.find?_cons]
    have hfst : (if kv.1 == "scores" then
        (kv.1, match kv.2 with
          | JValue.obj skvs => JValue.obj (skvs.map (fun sk => (sk.1, unwrapScore sk.2)))
          | s => s)
      else kv).1 = kv.1 := by
      by_cases hc : (kv.1 == "scores") = true <;> simp [hc]
    rw [hfst]
    by_cases hk : (kv.1 == k) = true
    · have hkeq : kv.1 = k := eq_of_beq hk
      subst hkeq
      simp only [hk]
      by_cases hc : (kv.1 == "scores") = true
      · simp [hc]
      · simp only [hc]
        simp only [Bool.not_eq_true] at hc
        simp [hc]
    · simp only [Bool.not_eq_true] at hk
      simp only [hk]
      exact ih

theorem dictGet?_map_unwrap (skvs : List (String × JValue)) (k : String) :
    dictGet? (skvs.map (fun sk => (sk.1, unwrapScore sk.2))) k =
      (dictGet? skvs k).map unwrapScore := by
  induction skvs with
  | nil => rfl
  | cons sk t ih =>
    simp only [List.map_cons, dictGet?, List.find?_cons]
    by_cases hk : (sk.1 == k) = true
    · simp [hk]
    · simp only [Bool.not_eq_true] at hk
      simp only [hk]
      exact ih

theorem pyEqNum_eq_toNumVal {x : JValue} (hx : pyIsNum x = true) (q : ℚ) :
    pyEqNum x q = (toNumVal x == q) := by
  cases x <;> first | rfl | exact absurd hx (by simp [pyIsNum])

theorem dictGet?_mem {d : List (String × JValue)} {k : String} {val : JValue}
    (h : dictGet? d k = some val) : ∃ kv ∈ d, kv.2 = val := by
  simp only [dictGet?, Option.map_eq_some'] at h
  obtain ⟨kv, hfind, hval⟩ := h
  exact ⟨kv, List.mem_of_find?_eq_some hfind, hval⟩

theorem pyEqNum_num (r x : ℚ) : pyEqNum (.num r) x = (r == x) := rfl

theorem pyEqNum_bool (b : Bool) (x : ℚ) :
    pyEqNum (.bool b) x = ((if b then (1 : ℚ) else 0) == x) := rfl

theorem isValid_of_validated (v : JValue) (h : _validate_ai_response v = some true) :
    _is_valid_ai_analysis (mutateScores v) = some (!(specSuspicious v)) := by
  obtain ⟨kvs, skvs, rfl, hs, hsk, hall, c, hc, hcn, hc0, hc1⟩ := validated_destruct h
  have hkne : kvs ≠ [] := by
    intro he
    rw [he] at hs
    simp [dictGet?] at hs
  have hov_contains : dictContains skvs "overall" = true := by
    simp only [score_keys, List.all_cons, List.all_nil, Bool.and_eq_true, Bool.and_true] at hsk
    exact hsk.2.2.2.2.2
  obtain ⟨ov, hov⟩ := dictContains_true_exists hov_contains
  obtain ⟨kv0, hkv0mem, hkv0val⟩ := dictGet?_mem hov
  have hovp := hall kv0 hkv0mem
  rw [hkv0val] at hovp
  have hget_s : dictGet? (kvs.map (fun kv =>
      if kv.1 == "scores" then
        (kv.1, match kv.2 with
          | JValue.obj skvs => JValue.obj (skvs.map (fun sk => (sk.1, unwrapScore sk.2)))
          | s => s)
      else kv)) "scores" =
      some (JValue.obj (skvs.map (fun sk => (sk.1, unwrapScore sk.2)))) := by
    rw [dictGet?_mutateList, hs]
    rfl
  have hget_c : dictGet? (kvs.map (fun kv =>
      if kv.1 == "scores" then
        (kv.1, match kv.2 with
          | JValue.obj skvs => JValue.obj (skvs.map (fun sk => (sk.1, unwrapScore sk.2)))
          | s => s)
      else kv)) "confidence" = some c := by
    rw [dictGet?_mutateList, hc]
    rfl
  have hget_ov : dictGet? (skvs.map (fun sk => (sk.1, unwrapScore sk.2))) "overall" =
      some (unwrapScore ov) := by
    rw [dictGet?_map_unwrap, hov]
    rfl
  simp only [mutateScores, _is_valid_ai_analysis]
  have hfalsy : pyFalsy (JValue.obj (kvs.map (fun kv =>
      if kv.1 == "scores" then
        (kv.1, match kv.2 with
          | JValue.obj skvs => JValue.obj (skvs.map (fun sk => (sk.1, unwrapScore sk.2)))
          | s => s)
      else kv))) = false := by
    simp [pyFalsy, List.isEmpty_iff, hkne]
  rw [hfalsy]
  simp only [Bool.false_eq_true, if_false, dictGetD, hget_s, hget_c, hget_ov,
    Option.getD_some]
  have hspec : specSuspicious (JValue.obj kvs) =
      (((toNumVal (unwrapScore ov) == 5) ||
        (decide (5.5 ≤ toNumVal (unwrapScore ov)) && decide (toNumVal (unwrapScore ov) ≤ 5.7))) &&
       (toNumVal c == 0.7)) := by
    simp only [specSuspicious, overallOf, confidenceOf, hs, dictGetD, hov, hc,
      Option.getD_some]
  rw [hspec]
  simp only [show (5.0 : ℚ) = 5 from by norm_num]
  simp only [pyEqNum_eq_toNumVal hcn]
  cases hovshape : unwrapScore ov with
  | num q =>
    simp only [pyEqNum_num, toNumVal]
    cases h5 : (q == 5) with
    | true => simp [h5]
    | false =>
      simp only [h5, Bool.false_eq_true, if_false, Bool.false_or]
      by_cases hr : 5.5 ≤ q ∧ q ≤ 5.7
      · rw [if_pos hr]
        have hd : (decide (5.5 ≤ q) && decide (q ≤ 5.7)) = true := by
          rw [← Bool.decide_and]
          exact decide_eq_true hr
        simp [hd]
      · rw [if_neg hr]
        have hd : (decide (5.5 ≤ q) && decide (q ≤ 5.7)) = false := by
          rw [← Bool.decide_and]
          exact decide_eq_false hr
        simp [hd]
  | bool b =>
    simp only [pyEqNum_bool, toNumVal]
    cases b with
    | true =>
      have h1 : ((1 : ℚ) == 5) = false := by decide
      have h2 : (decide ((5.5 : ℚ) ≤ 1)) = false := by decide
      simp only [if_pos]
      rw [if_neg (show ¬((1 : ℚ) == 5) = true by simp [h1])]
      rw [if_neg (show ¬((5.5 : ℚ) ≤ 1 ∧ (1 : ℚ) ≤ 5.7) by norm_num)]
      simp [h1, h2]
    | false =>
      have h1 : ((0 : ℚ) == 5) = false := by decide
      have h2 : (decide ((5.5 : ℚ) ≤ 0)) = false := by decide
      simp only [Bool.false_eq_true, if_false]
      rw [if_neg (show ¬((0 : ℚ) == 5) = true by simp [h1])]
      rw [if_neg (show ¬((5.5 : ℚ) ≤ 0 ∧ (0 : ℚ) ≤ 5.7) by norm_num)]
      simp [h1, h2]
  | null => exact absurd hovp.1 (by rw [hovshape]; simp [pyIsNum])
  | str s => exact absurd hovp.1 (by rw [hovshape]; simp [pyIsNum])
  | arr xs => exact absurd hovp.1 (by rw [hovshape]; simp [pyIsNum])
  | obj o => exact absurd hovp.1 (by rw [hovshape]; simp [pyIsNum])

/-! ## Claim theorems -/

theorem buildResult_rule (p : String) :
    buildResult p (_rule_based_analysis p) = some (fallbackResult p) := rfl

/-- **C1.**  For every prompt and every behavior of the injected external
generation capability that is not a full acceptance — it raises, returns
unparseable text, returns a structure failing validation (including a
`TypeError`/`AttributeError` raised inside the validator, which
`_get_ai_analysis` catches), or returns a structure failing the plausibility
check — `comprehensive_analysis` propagates no exception (the result is
`some …`) and returns exactly the `AnalysisResult` produced by the heuristic
fallback path. -/
theorem arbiter_falls_back_on_failure (b : ExtBehavior) (p : String)
    (h : ¬ acceptedExternal b) :
    comprehensive_analysis b p = some (fallbackResult p) := by
  cases b with
  | raises => exact buildResult_rule p
  | unparseable => exact buildResult_rule p
  | parsed v =>
    cases hv : _validate_ai_response v with
    | none =>
      simp only [comprehensive_analysis, _get_ai_analysis, hv]
      exact buildResult_rule p
    | some bv =>
      cases bv with
      | false =>
        simp only [comprehensive_analysis, _get_ai_analysis, hv]
        exact buildResult_rule p
      | true =>
        have hval := isValid_of_validated v hv
        simp only [comprehensive_analysis, _get_ai_analysis, hv]
        cases hf : pyFalsy (mutateScores v) with
        | true =>
          simp only [hf, if_pos rfl]
          exact buildResult_rule p
        | false =>
          simp only [hf, Bool.false_eq_true, if_false]
          cases hbb : (specSuspicious v) with
          | false =>
            exact absurd ⟨v, rfl, hv, by rw [hval, hbb]; rfl⟩ h
          | true =>
            rw [hval, hbb]
            exact buildResult_rule p

/-- Witness for C1 at the concrete behavior "the generation call raises" and
prompt `"hello"`. -/
theorem arbiter_falls_back_on_failure_witness :
    ¬ acceptedExternal ExtBehavior.raises ∧
      comprehensive_analysis ExtBehavior.raises "hello" = some (fallbackResult "hello") := by
  have h : ¬ acceptedExternal ExtBehavior.raises := by
    rintro ⟨v, hveq, -, -⟩
    exact ExtBehavior.noConfusion hveq
  exact ⟨h, arbiter_falls_back_on_failure ExtBehavior.raises "hello" h⟩

theorem one_le_clamp110 (q : ℚ) : 1 ≤ clamp110 q := le_max_left 1 _

theorem clamp110_le_ten (q : ℚ) : clamp110 q ≤ 10 :=
  max_le (by norm_num) (min_le_left _ _)

/-- **C2.**  Each of the five lexical scorers is a total function (it cannot
raise: the model assigns it the plain type `String → ℚ`) and returns a score
in [1.0, 10.0] on every input string, including the empty string. -/
theorem scorers_bounded (p : String) :
    (1 ≤ _calculate_clarity_score p ∧ _calculate_clarity_score p ≤ 10) ∧
    (1 ≤ _calculate_specificity_score p ∧ _calculate_specificity_score p ≤ 10) ∧
    (1 ≤ _calculate_context_score p ∧ _calculate_context_score p ≤ 10) ∧
    (1 ≤ _calculate_constraint_score p ∧ _calculate_constraint_score p ≤ 10) ∧
    (1 ≤ _calculate_goal_score p ∧ _calculate_goal_score p ≤ 10) := by
  refine ⟨⟨?_, ?_⟩, ⟨?_, ?_⟩, ⟨?_, ?_⟩, ⟨?_, ?_⟩, ?_, ?_⟩ <;>
    first
      | exact one_le_clamp110 _
      | exact clamp110_le_ten _

/-- **C3, counterexample.**  `exRespBoolScores` carries boolean scores, a
boolean confidence and a string `analysis` entry: `_validate_ai_response`
accepts it, while the claimed characterization (`specValidate`, which demands
genuine numbers and an `analysis` mapping) rejects it — so the claimed "if and
only if" is false. -/
theorem validate_iff_counterexample :
    _validate_ai_response exRespBoolScores = some true ∧
      specValidate exRespBoolScores = false := by
  exact ⟨by decide, by decide⟩

/-- **C3, amended.**  `validate(raw)` returns `True` iff: the four top-level
keys are present; `scores` is a mapping with the six keys whose values (after
unwrapping single-element lists) are ints, floats *or bools* with numeric
value in [1,10] (`True` counts as 1); `analysis` contains the three names
under Python `in` semantics (mapping key / substring / list element); and
`confidence` is an int, float or bool with value in [0,1]. -/
theorem validate_iff_amended (v : JValue) :
    _validate_ai_response v = some true ↔ specValidateAmended v = true :=
  validate_char v

/-- **C4.**  On every raw structure that passed validation, the plausibility
check never raises and returns `False` exactly when the (unwrapped) overall
score equals 5.0 or lies in [5.5, 5.7] *and* the confidence equals exactly
0.7; on every other validated input it returns `True`. -/
theorem plausibility_characterization (v : JValue)
    (h : _validate_ai_response v = some true) :
    _is_valid_ai_analysis (mutateScores v) = some (!(specSuspicious v)) :=
  isValid_of_validated v h

/-- Witness for C4 at a concrete validated response (overall 6.2, confidence
0.85 — accepted as plausible). -/
theorem plausibility_characterization_witness :
    _validate_ai_response exRespPlausible = some true ∧
      _is_valid_ai_analysis (mutateScores exRespPlausible) =
        some (!(specSuspicious exRespPlausible)) :=
  ⟨by decide, plausibility_characterization exRespPlausible (by decide)⟩

/-- **C10.**  A raw structure with all required keys whose score values are
all the boolean `true` and whose confidence is a number in [0,1] passes
validation: Python's `isinstance(True, (int, float))` holds and `True == 1 ∈
[1,10]`. -/
theorem validator_accepts_boolean_scores
    (kvs skvs akvs : List (String × JValue)) (c : ℚ)
    (hreq : required_keys.all (dictContains kvs) = true)
    (hs : dictGet? kvs "scores" = some (.obj skvs))
    (hsk : score_keys.all (dictContains skvs) = true)
    (hvals : ∀ kv ∈ skvs, kv.2 = JValue.bool true)
    (ha : dictGet? kvs "analysis" = some (.obj akvs))
    (hak : analysis_keys.all (dictContains akvs) = true)
    (hc : dictGet? kvs "confidence" = some (.num c))
    (hc0 : 0 ≤ c) (hc1 : c ≤ 1) :
    _validate_ai_response (JValue.obj kvs) = some true := by
  rw [validate_char]
  simp only [specValidateAmended, hs, ha, hc, Bool.and_eq_true]
  refine ⟨⟨⟨hreq, hsk, ?_⟩, trivial, ?_⟩, rfl, ?_, ?_⟩
  · rw [List.all_eq_true]
    intro kv hkv
    rw [hvals kv hkv]
    decide
  · show (analysis_keys.all (dictContains akvs)) = true
    exact hak
  · exact decide_eq_true hc0
  · exact decide_eq_true hc1

/-- Witness for C10 at the concrete response `exRespAllBoolTrue` (all six
scores `true`, confidence 0.9). -/
theorem validator_accepts_boolean_scores_witness :
    (∀ kv ∈ [("clarity", JValue.bool true), ("specificity", JValue.bool true),
      ("context", JValue.bool true), ("constraints", JValue.bool true),
      ("goal_orientation", JValue.bool true), ("overall", JValue.bool true)],
      kv.2 = JValue.bool true) ∧
    _validate_ai_response exRespAllBoolTrue = some true := by
  constructor
  · intro kv hkv
    simp only [List.mem_cons, List.not_mem_nil, or_false] at hkv
    rcases hkv with rfl | rfl | rfl | rfl | rfl | rfl <;> rfl
  · exact validator_accepts_boolean_scores
      [("scores", .obj [
        ("clarity", .bool true), ("specificity", .bool true), ("context", .bool true),
        ("constraints", .bool true), ("goal_orientation", .bool true), ("overall", .bool true)]),
       ("analysis", .obj [
        ("strengths", .arr [.str "s1"]), ("weaknesses", .arr [.str "w1"]),
        ("suggestions", .arr [.str "g1"])]),
       ("improved_prompt", .str "x"),
       ("confidence", .num 0.9)]
      [("clarity", .bool true), ("specificity", .bool true), ("context", .bool true),
       ("constraints", .bool true), ("goal_orientation", .bool true), ("overall", .bool true)]
      [("strengths", .arr [.str "s1"]), ("weaknesses", .arr [.str "w1"]),
       ("suggestions", .arr [.str "g1"])]
      0.9 (by decide) rfl (by decide)
      (by intro kv hkv
          simp only [List.mem_cons, List.not_mem_nil, or_false] at hkv
          rcases hkv with rfl | rfl | rfl | rfl | rfl | rfl <;> rfl)
      rfl (by decide) rfl (by norm_num) (by norm_num)

/-- **C5, counterexample.**  The accepted external response `exRespConf07`
(overall 8.0, confidence 0.7) is not produced by the fallback path, yet the
returned `AnalysisResult` carries confidence_level exactly 0.7 — so
"confidence 0.7 iff heuristic origin" is false. -/
theorem confidence_marks_fallback_counterexample :
    usedFallback (ExtBehavior.parsed exRespConf07) = false ∧
      (comprehensive_analysis (ExtBehavior.parsed exRespConf07) "hi").map
        (fun r => pyEqNum r.confidence_level 0.7) = some true :=
  ⟨by decide, by decide⟩

/-- **C5, amended.**  The heuristic fallback path always yields
confidence_level exactly 0.7; conversely, a returned `AnalysisResult` with
confidence_level 0.7 was produced either by the fallback path or by an
accepted external analysis whose own confidence field equals 0.7 (which the
plausibility check only rejects when the overall score is also in the
suspicious range). -/
theorem confidence_marks_fallback_amended (b : ExtBehavior) (p : String)
    (r : AnalysisResult) (h : comprehensive_analysis b p = some r) :
    (usedFallback b = true → r.confidence_level = JValue.num 0.7) ∧
    (r.confidence_level = JValue.num 0.7 →
      usedFallback b = true ∨
        ∃ v, _get_ai_analysis b = some v ∧ confidenceOf v = JValue.num 0.7) := by
  cases hg : _get_ai_analysis b with
  | none =>
    rw [comprehensive_analysis, hg, buildResult_rule] at h
    have hr : r = fallbackResult p := by
      injection h with h'
      exact h'.symm
    subst hr
    refine ⟨fun _ => rfl, fun _ => Or.inl ?_⟩
    simp [usedFallback, hg]
  | some v =>
    simp only [comprehensive_analysis, hg] at h
    cases hf : pyFalsy v with
    | true =>
      rw [hf, if_pos rfl, buildResult_rule] at h
      have hr : r = fallbackResult p := by
        injection h with h'
        exact h'.symm
      subst hr
      refine ⟨fun _ => rfl, fun _ => Or.inl ?_⟩
      simp [usedFallback, hg, hf]
    | false =>
      rw [hf] at h
      simp only [Bool.false_eq_true, if_false] at h
      cases hiv : _is_valid_ai_analysis v with
      | none => rw [hiv] at h; exact absurd h (by simp)
      | some bv =>
        rw [hiv] at h
        cases bv with
        | false =>
          rw [buildResult_rule] at h
          have hr : r = fallbackResult p := by
            injection h with h'
            exact h'.symm
          subst hr
          refine ⟨fun _ => rfl, fun _ => Or.inl ?_⟩
          simp [usedFallback, hg, hf, hiv]
        | true =>
          have hub : usedFallback b = false := by
            simp [usedFallback, hg, hf, hiv]
          refine ⟨fun hu => absurd (hub ▸ hu) (by simp), fun hconf => ?_⟩
          -- the accepted external path: r is built from v
          cases v with
          | obj kvs =>
            cases hsv : dictGetD kvs "scores" (JValue.obj []) with
            | obj skvs =>
              cases hav : dictGetD kvs "analysis" (JValue.obj []) with
              | obj akvs =>
                simp only [buildResult, hsv, hav, Option.some.injEq] at h
                cases hq : dictGet? kvs "confidence" with
                | none =>
                  rw [← h] at hconf
                  simp only [dictGetD, hq, Option.getD_none] at hconf
                  have h57 : (0.5 : ℚ) = 0.7 := by injection hconf
                  norm_num at h57
                | some cv =>
                  rw [← h] at hconf
                  simp only [dictGetD, hq, Option.getD_some] at hconf
                  refine Or.inr ⟨JValue.obj kvs, rfl, ?_⟩
                  simp only [confidenceOf, dictGetD, hq, Option.getD_some]
                  exact hconf
              | null => simp [buildResult, hsv, hav] at h
              | bool b2 => simp [buildResult, hsv, hav] at h
              | num q2 => simp [buildResult, hsv, hav] at h
              | str s2 => simp [buildResult, hsv, hav] at h
              | arr xs2 => simp [buildResult, hsv, hav] at h
            | null => simp [buildResult, hsv] at h
            | bool b2 => simp [buildResult, hsv] at h
            | num q2 => simp [buildResult, hsv] at h
            | str s2 => simp [buildResult, hsv] at h
            | arr xs2 => simp [buildResult, hsv] at h
          | null => simp [buildResult] at h
          | bool b2 => simp [buildResult] at h
          | num q2 => simp [buildResult] at h
          | str s2 => simp [buildResult] at h
          | arr xs2 => simp [buildResult] at h

/-- Witness for C5 (amended) at the concrete behavior "the generation call
raises" and prompt `"hi"`. -/
theorem confidence_marks_fallback_amended_witness :
    comprehensive_analysis ExtBehavior.raises "hi" = some (fallbackResult "hi") ∧
    ((usedFallback ExtBehavior.raises = true →
        (fallbackResult "hi").confidence_level = JValue.num 0.7) ∧
     ((fallbackResult "hi").confidence_level = JValue.num 0.7 →
        usedFallback ExtBehavior.raises = true ∨
          ∃ v, _get_ai_analysis ExtBehavior.raises = some v ∧
            confidenceOf v = JValue.num 0.7)) :=
  ⟨rfl, confidence_marks_fallback_amended ExtBehavior.raises "hi" (fallbackResult "hi") rfl⟩

/-- **C6, counterexample.**  On `"write stuff and stuff"` (4 words, base 3.0,
`write` present, `stuff` occurring twice) the source scores 3 − 1 + 0.5 = 2.5
— the vague entry `stuff` is counted once, not once per occurrence — while
the claimed per-occurrence formula gives 3 − 2 + 0.5 = 1.5. -/
theorem clarity_per_occurrence_counterexample :
    _calculate_clarity_score "write stuff and stuff" = 5/2 ∧
      clarity_score_spec_occurrences "write stuff and stuff" = 3/2 ∧
      ¬ ((5 : ℚ)/2 = 3/2) :=
  ⟨by decide, by decide, by norm_num⟩

/-- **C6, amended.**  The clarity scorer returns the clamp into [1,10] of the
word-count-bucketed base, minus 1.0 per vague lexicon *entry that occurs* (a
case-insensitive substring test, counted once per entry), plus 0.5 per clear
action *entry that occurs*, plus 0.5 flat if the text contains a question
mark. -/
theorem clarity_formula_amended (p : String) :
    _calculate_clarity_score p = clarity_score_spec_presence p := by
  simp only [_calculate_clarity_score, clarity_score_spec_presence]
  cases h : p.toList.contains '?' <;> simp [h]

/-! ## Every heuristic score is an integer multiple of 1/10, so Python's
`round(x, 1)` leaves the dimension scores unchanged -/

theorem IsTenth.add {a b : ℚ} (ha : IsTenth a) (hb : IsTenth b) : IsTenth (a + b) := by
  obtain ⟨m, rfl⟩ := ha
  obtain ⟨n, rfl⟩ := hb
  exact ⟨m + n, by push_cast; ring⟩

theorem IsTenth.sub {a b : ℚ} (ha : IsTenth a) (hb : IsTenth b) : IsTenth (a - b) := by
  obtain ⟨m, rfl⟩ := ha
  obtain ⟨n, rfl⟩ := hb
  exact ⟨m - n, by push_cast; ring⟩

theorem IsTenth.min {a b : ℚ} (ha : IsTenth a) (hb : IsTenth b) : IsTenth (min a b) := by
  obtain ⟨m, rfl⟩ := ha
  obtain ⟨n, rfl⟩ := hb
  exact ⟨Min.min m n, by rw [min_div_div_right (by norm_num : (0:ℚ) ≤ 10), Int.cast_min]⟩

theorem IsTenth.max {a b : ℚ} (ha : IsTenth a) (hb : IsTenth b) : IsTenth (max a b) := by
  obtain ⟨m, rfl⟩ := ha
  obtain ⟨n, rfl⟩ := hb
  exact ⟨Max.max m n, by rw [max_div_div_right (by norm_num : (0:ℚ) ≤ 10), Int.cast_max]⟩

theorem IsTenth.natMul (k : ℕ) {c : ℚ} (hc : IsTenth c) : IsTenth ((k : ℚ) * c) := by
  obtain ⟨n, rfl⟩ := hc
  exact ⟨k * n, by push_cast; ring⟩

theorem IsTenth.ite (c : Prop) [Decidable c] {a b : ℚ}
    (ha : IsTenth a) (hb : IsTenth b) : IsTenth (if c then a else b) := by
  by_cases h : c
  · rw [if_pos h]; exact ha
  · rw [if_neg h]; exact hb

theorem IsTenth.clamp {q : ℚ} (h : IsTenth q) : IsTenth (clamp110 q) :=
  IsTenth.max ⟨10, by norm_num⟩ (IsTenth.min ⟨100, by norm_num⟩ h)

theorem isTenth_c03 : IsTenth (0.3 : ℚ) := ⟨3, by norm_num⟩
theorem isTenth_c05 : IsTenth (0.5 : ℚ) := ⟨5, by norm_num⟩
theorem isTenth_c06 : IsTenth (0.6 : ℚ) := ⟨6, by norm_num⟩
theorem isTenth_c08 : IsTenth (0.8 : ℚ) := ⟨8, by norm_num⟩
theorem isTenth_c10 : IsTenth (1.0 : ℚ) := ⟨10, by norm_num⟩
theorem isTenth_c15 : IsTenth (1.5 : ℚ) := ⟨15, by norm_num⟩
theorem isTenth_c20 : IsTenth (2.0 : ℚ) := ⟨20, by norm_num⟩
theorem isTenth_c30 : IsTenth (3.0 : ℚ) := ⟨30, by norm_num⟩
theorem isTenth_c40 : IsTenth (4.0 : ℚ) := ⟨40, by norm_num⟩
theorem isTenth_c50 : IsTenth (5.0 : ℚ) := ⟨50, by norm_num⟩
theorem isTenth_c60 : IsTenth (6.0 : ℚ) := ⟨60, by norm_num⟩
theorem isTenth_c70 : IsTenth (7.0 : ℚ) := ⟨70, by norm_num⟩
theorem isTenth_c80 : IsTenth (8.0 : ℚ) := ⟨80, by norm_num⟩

theorem isTenth_clarity (p : String) : IsTenth (_calculate_clarity_score p) := by
  simp only [_calculate_clarity_score]
  repeat'
    first
    | apply IsTenth.clamp
    | apply IsTenth.ite
    | apply IsTenth.add
    | apply IsTenth.sub
    | apply IsTenth.min
    | apply IsTenth.natMul
    | exact isTenth_c03
    | exact isTenth_c05
    | exact isTenth_c06
    | exact isTenth_c08
    | exact isTenth_c10
    | exact isTenth_c15
    | exact isTenth_c20
    | exact isTenth_c30
    | exact isTenth_c40
    | exact isTenth_c50
    | exact isTenth_c60
    | exact isTenth_c70
    | exact isTenth_c80

theorem isTenth_specificity (p : String) : IsTenth (_calculate_specificity_score p) := by
  simp only [_calculate_specificity_score]
  repeat'
    first
    | apply IsTenth.clamp
    | apply IsTenth.ite
    | apply IsTenth.add
    | apply IsTenth.sub
    | apply IsTenth.min
    | apply IsTenth.natMul
    | exact isTenth_c05
    | exact isTenth_c08
    | exact isTenth_c10
    | exact isTenth_c15
    | exact isTenth_c20
    | exact isTenth_c30
    | exact isTenth_c50
    | exact isTenth_c70

theorem isTenth_context (p : String) : IsTenth (_calculate_context_score p) := by
  simp only [_calculate_context_score]
  repeat'
    first
    | apply IsTenth.clamp
    | apply IsTenth.ite
    | apply IsTenth.add
    | apply IsTenth.min
    | apply IsTenth.natMul
    | exact isTenth_c03
    | exact isTenth_c08
    | exact isTenth_c10
    | exact isTenth_c20
    | exact isTenth_c30
    | exact isTenth_c40
    | exact isTenth_c50
    | exact isTenth_c60
    | exact isTenth_c80

theorem isTenth_constraint (p : String) : IsTenth (_calculate_constraint_score p) := by
  simp only [_calculate_constraint_score]
  repeat'
    first
    | apply IsTenth.clamp
    | apply IsTenth.ite
    | apply IsTenth.add
    | apply IsTenth.min
    | apply IsTenth.natMul
    | exact isTenth_c05
    | exact isTenth_c06
    | exact isTenth_c08
    | exact isTenth_c10
    | exact isTenth_c20
    | exact isTenth_c30
    | exact isTenth_c40

theorem isTenth_goal (p : String) : IsTenth (_calculate_goal_score p) := by
  simp only [_calculate_goal_score]
  repeat'
    first
    | apply IsTenth.clamp
    | apply IsTenth.ite
    | apply IsTenth.add
    | apply IsTenth.sub
    | apply IsTenth.min
    | apply IsTenth.natMul
    | exact isTenth_c06
    | exact isTenth_c08
    | exact isTenth_c10
    | exact isTenth_c15
    | exact isTenth_c20
    | exact isTenth_c30
    | exact isTenth_c40

theorem roundTo1_eq_self {q : ℚ} (h : IsTenth q) : roundTo1 q = q := by
  obtain ⟨n, rfl⟩ := h
  rw [roundTo1, show (10 : ℚ) * ((n : ℚ) / 10) = (n : ℚ) by field_simp, round_intCast]

theorem roundTo1_bounds {q : ℚ} (h1 : 1 ≤ q) (h10 : q ≤ 10) :
    1 ≤ roundTo1 q ∧ roundTo1 q ≤ 10 := by
  have hmono : ∀ a b : ℚ, a ≤ b → round a ≤ round b := by
    intro a b hab
    rw [round_eq, round_eq]
    exact Int.floor_le_floor (by linarith)
  have hlo : (10 : ℤ) ≤ round ((10 : ℚ) * q) := by
    have := hmono 10 (10 * q) (by linarith)
    rwa [show ((10 : ℚ)) = ((10 : ℤ) : ℚ) by norm_num, round_intCast] at this
  have hhi : round ((10 : ℚ) * q) ≤ (100 : ℤ) := by
    have := hmono (10 * q) 100 (by linarith)
    rwa [show ((100 : ℚ)) = ((100 : ℤ) : ℚ) by norm_num, round_intCast] at this
  constructor
  · rw [roundTo1, le_div_iff₀ (by norm_num : (0:ℚ) < 10)]
    calc (1 : ℚ) * 10 = ((10 : ℤ) : ℚ) := by norm_num
    _ ≤ _ := by exact_mod_cast hlo
  · rw [roundTo1, div_le_iff₀ (by norm_num : (0:ℚ) < 10)]
    calc ((round ((10:ℚ) * q) : ℤ) : ℚ) ≤ ((100 : ℤ) : ℚ) := by exact_mod_cast hhi
    _ = 10 * 10 := by norm_num

/-- **C7.**  In every heuristic-fallback analysis, the stored `overall` score
equals the unweighted arithmetic mean of the five stored dimension scores
rounded to one decimal place, and lies in [1.0, 10.0].  (The stored dimension
scores are `round(·, 1)` of the raw scorer values, which `roundTo1_eq_self`
shows is the identity on them.) -/
theorem overall_is_rounded_mean (p : String) :
    (jGet (_rule_based_analysis p) "scores").bind (fun s => jGet s "overall") =
      some (JValue.num (roundTo1
        ((roundTo1 (_calculate_clarity_score p) + roundTo1 (_calculate_specificity_score p) +
          roundTo1 (_calculate_context_score p) + roundTo1 (_calculate_constraint_score p) +
          roundTo1 (_calculate_goal_score p)) / 5))) ∧
    1 ≤ roundTo1
        ((roundTo1 (_calculate_clarity_score p) + roundTo1 (_calculate_specificity_score p) +
          roundTo1 (_calculate_context_score p) + roundTo1 (_calculate_constraint_score p) +
          roundTo1 (_calculate_goal_score p)) / 5) ∧
    roundTo1
        ((roundTo1 (_calculate_clarity_score p) + roundTo1 (_calculate_specificity_score p) +
          roundTo1 (_calculate_context_score p) + roundTo1 (_calculate_constraint_score p) +
          roundTo1 (_calculate_goal_score p)) / 5) ≤ 10 := by
  have e1 := roundTo1_eq_self (isTenth_clarity p)
  have e2 := roundTo1_eq_self (isTenth_specificity p)
  have e3 := roundTo1_eq_self (isTenth_context p)
  have e4 := roundTo1_eq_self (isTenth_constraint p)
  have e5 := roundTo1_eq_self (isTenth_goal p)
  have b1a : 1 ≤ _calculate_clarity_score p := one_le_clamp110 _
  have b1b : _calculate_clarity_score p ≤ 10 := clamp110_le_ten _
  have b2a : 1 ≤ _calculate_specificity_score p := one_le_clamp110 _
  have b2b : _calculate_specificity_score p ≤ 10 := clamp110_le_ten _
  have b3a : 1 ≤ _calculate_context_score p := one_le_clamp110 _
  have b3b : _calculate_context_score p ≤ 10 := clamp110_le_ten _
  have b4a : 1 ≤ _calculate_constraint_score p := one_le_clamp110 _
  have b4b : _calculate_constraint_score p ≤ 10 := clamp110_le_ten _
  have b5a : 1 ≤ _calculate_goal_score p := one_le_clamp110 _
  have b5b : _calculate_goal_score p ≤ 10 := clamp110_le_ten _
  have hlo : 1 ≤ (_calculate_clarity_score p + _calculate_specificity_score p +
      _calculate_context_score p + _calculate_constraint_score p +
      _calculate_goal_score p) / 5 := by
    rw [le_div_iff₀ (by norm_num : (0:ℚ) < 5)]
    linarith
  have hhi : (_calculate_clarity_score p + _calculate_specificity_score p +
      _calculate_context_score p + _calculate_constraint_score p +
      _calculate_goal_score p) / 5 ≤ 10 := by
    rw [div_le_iff₀ (by norm_num : (0:ℚ) < 5)]
    linarith
  obtain ⟨hrlo, hrhi⟩ := roundTo1_bounds hlo hhi
  rw [e1, e2, e3, e4, e5]
  exact ⟨rfl, hrlo, hrhi⟩

/-- **C8, counterexample.**  The accepted external response
`exRespSixStrengths` delivers six strengths, and the Arbiter returns them
untruncated: the resulting `AnalysisResult` has a strengths list of length 6,
violating the claimed bound of 5. -/
theorem lists_bounded_counterexample :
    (comprehensive_analysis (ExtBehavior.parsed exRespSixStrengths) "hi").map
      (fun r => jvLen r.strengths) = some 6 ∧ ¬ (6 ≤ 5) :=
  ⟨by decide, by norm_num⟩

/-- **C8, amended.**  Every `AnalysisResult` produced by the *heuristic
fallback* path has at most 5 strengths, at most 5 weaknesses and at most 5
suggestions (each list is truncated with `[:5]`); results built from an
accepted external analysis carry the delivered lists without truncation. -/
theorem lists_bounded_amended (p : String) :
    jvLen (fallbackResult p).strengths ≤ 5 ∧
    jvLen (fallbackResult p).weaknesses ≤ 5 ∧
    jvLen (fallbackResult p).suggestions ≤ 5 := by
  refine ⟨?_, ?_, ?_⟩ <;>
    simp [fallbackResult, jvLen, _identify_strengths, _identify_weaknesses,
      _generate_suggestions, List.length_take]

/-! ## Word-splitting and substring lemmas (for the idempotence of
`_improve_prompt`) -/

theorem toList_append (s t : String) : (s ++ t).toList = s.toList ++ t.toList := rfl

theorem wordsAux_append_ws {c : Char} (h : wsB c = true) :
    ∀ (a : List Char) (b acc : List Char),
      wordsAux (a ++ c :: b) acc = wordsAux a acc ++ wordsAux b [] := by
  intro a
  induction a with
  | nil =>
    intro b acc
    simp only [List.nil_append, wordsAux, h, if_pos]
    cases hacc : acc.isEmpty <;> simp [wordsAux, hacc]
  | cons x a' ih =>
    intro b acc
    simp only [List.cons_append, wordsAux]
    by_cases hx : wsB x = true
    · rw [if_pos hx, if_pos hx]
      cases hacc : acc.isEmpty <;> simp [hacc, ih]
    · rw [if_neg hx, if_neg hx]
      exact ih b (x :: acc)

theorem pyWords_append_ws {c : Char} (h : wsB c = true) (a b : List Char) :
    pyWords (a ++ c :: b) = pyWords a ++ pyWords b :=
  wordsAux_append_ws h a b []

theorem pyWords_cons_ws {c : Char} (h : wsB c = true) (l : List Char) :
    pyWords (c :: l) = pyWords l := by
  simp [pyWords, wordsAux, h]

theorem pyWords_snoc_ws {c : Char} (h : wsB c = true) (l : List Char) :
    pyWords (l ++ [c]) = pyWords l := by
  rw [pyWords_append_ws h l []]
  simp [pyWords, wordsAux]

theorem pyWords_dropWhile (l : List Char) : pyWords (l.dropWhile wsB) = pyWords l := by
  induction l with
  | nil => rfl
  | cons c t ih =>
    by_cases h : wsB c = true
    · rw [List.dropWhile_cons_of_pos h, ih, pyWords_cons_ws h]
    · rw [List.dropWhile_cons_of_neg h]

theorem pyWords_revdrop (r : List Char) :
    pyWords ((r.dropWhile wsB).reverse) = pyWords r.reverse := by
  induction r with
  | nil => rfl
  | cons c t ih =>
    by_cases h : wsB c = true
    · rw [List.dropWhile_cons_of_pos h, ih, List.reverse_cons, pyWords_snoc_ws h]
    · rw [List.dropWhile_cons_of_neg h]

theorem pyWords_strip (l : List Char) : pyWords (pyStripL l) = pyWords l := by
  rw [pyStripL]
  calc pyWords (((l.dropWhile wsB).reverse.dropWhile wsB).reverse)
      = pyWords (l.dropWhile wsB).reverse.reverse := pyWords_revdrop _
    _ = pyWords (l.dropWhile wsB) := by rw [List.reverse_reverse]
    _ = pyWords l := pyWords_dropWhile l

theorem strip_trailing_append (x z : List Char) (h : z.reverse.dropWhile wsB ≠ []) :
    ((x ++ z).reverse.dropWhile wsB).reverse = x ++ (z.reverse.dropWhile wsB).reverse := by
  rw [List.reverse_append, List.dropWhile_append]
  have he : (z.reverse.dropWhile wsB).isEmpty = false := by
    cases hz : z.reverse.dropWhile wsB with
    | nil => exact absurd hz h
    | cons a t => rfl
  rw [if_neg (by simp [he]), List.reverse_append, List.reverse_reverse]

theorem containsSub_nil_pat (hay : List Char) : containsSub hay [] = true := by
  cases hay <;> simp [containsSub]

theorem isPrefixOf_append {pat a : List Char} (b : List Char)
    (h : pat.isPrefixOf a = true) : pat.isPrefixOf (a ++ b) = true := by
  induction pat generalizing a with
  | nil => simp
  | cons x ps ih =>
    cases a with
    | nil => simp at h
    | cons y a' =>
      simp only [List.cons_append, List.isPrefixOf] at h ⊢
      simp only [Bool.and_eq_true] at h ⊢
      exact ⟨h.1, ih h.2⟩

theorem containsSub_append_right (a : List Char) {b pat : List Char}
    (h : containsSub b pat = true) : containsSub (a ++ b) pat = true := by
  induction a with
  | nil => exact h
  | cons x a' ih =>
    simp only [List.cons_append, containsSub, Bool.or_eq_true]
    exact Or.inr ih

theorem containsSub_append_left {a pat : List Char} (b : List Char)
    (h : containsSub a pat = true) : containsSub (a ++ b) pat = true := by
  induction a with
  | nil =>
    simp only [containsSub, List.isEmpty_iff] at h
    subst h
    exact containsSub_nil_pat b
  | cons x a' ih =>
    simp only [containsSub, Bool.or_eq_true] at h
    rcases h with h | h
    · simp only [List.cons_append, containsSub, Bool.or_eq_true]
      exact Or.inl (isPrefixOf_append b h)
    · simp only [List.cons_append, containsSub, Bool.or_eq_true]
      exact Or.inr (ih h)

theorem lc_append (a b : List Char) : lc (a ++ b) = lc a ++ lc b := List.map_append _ a b

theorem hasKW_append_left {p w : String} (s : String) (h : hasKW p w = true) :
    hasKW (p ++ s) w = true := by
  simp only [hasKW] at h ⊢
  rw [toList_append, lc_append]
  exact containsSub_append_left _ h

theorem hasKW_append_right {s w : String} (p : String) (h : hasKW s w = true) :
    hasKW (p ++ s) w = true := by
  simp only [hasKW] at h ⊢
  rw [toList_append, lc_append]
  exact containsSub_append_right _ h

set_option maxRecDepth 16384

theorem toList_pyStripStr (s : String) : (pyStripStr s).toList = pyStripL s.toList := rfl

theorem wordCount_append_ws_head (p s : String) {c : Char} {t : List Char}
    (hs : s.toList = c :: t) (hc : wsB c = true) :
    wordCount (p ++ s) = wordCount p + (pyWords t).length := by
  simp only [wordCount, toList_append, hs, pyWords_append_ws hc, List.length_append]

/-- **C9.**  `_improve_prompt` is deterministic (it is a pure function) and
idempotent: re-applying it to its own output, with any weakness list, returns
that output unchanged — the injected formatting-request and length-target
sentences are never appended twice, and the short-prompt template already
satisfies every containment check. -/
theorem improve_prompt_idempotent (p : String) (w w' : List String) :
    _improve_prompt (_improve_prompt p w) w' = _improve_prompt p w := by
  by_cases hwc : wordCount p < 15
  · -- short prompt: the first application returns the stripped template
    have h1 : _improve_prompt p w = pyStripStr ("\n" ++ p ++ templateTail) := by
      rw [_improve_prompt, if_pos hwc]
    rw [h1]
    by_cases hD : (p.toList.dropWhile wsB).isEmpty = true
    · -- the prompt is pure whitespace: the output is a fixed concrete string
      have hdw : ("\n" ++ p ++ templateTail).toList.dropWhile wsB
          = templateTail.toList.dropWhile wsB := by
        show ('\n' :: (p.toList ++ templateTail.toList)).dropWhile wsB = _
        rw [List.dropWhile_cons_of_pos (by decide : wsB '\n' = true)]
        rw [List.dropWhile_append, if_pos hD]
      have hqs : pyStripStr ("\n" ++ p ++ templateTail) = pyStripStr templateTail := by
        simp only [pyStripStr, pyStripL, hdw]
      rw [hqs]
      rw [_improve_prompt]
      rw [if_neg (show ¬ wordCount (pyStripStr templateTail) < 15 from by decide)]
      rw [show (!(hasKW (pyStripStr templateTail) "format")) = false from by decide]
      rw [show (!(["words", "length", "brief", "detailed"].any
        (hasKW (pyStripStr templateTail)))) = false from by decide]
      simp only [Bool.false_eq_true, if_false]
      rw [String.append_empty, String.append_empty]
    · -- the prompt keeps some leading text; the template tail is appended
      have hdw : ("\n" ++ p ++ templateTail).toList.dropWhile wsB
          = p.toList.dropWhile wsB ++ templateTail.toList := by
        show ('\n' :: (p.toList ++ templateTail.toList)).dropWhile wsB = _
        rw [List.dropWhile_cons_of_pos (by decide : wsB '\n' = true)]
        rw [List.dropWhile_append, if_neg hD]
      have hstr : pyStripL (("\n" ++ p ++ templateTail).toList)
          = p.toList.dropWhile wsB ++ (templateTail.toList.reverse.dropWhile wsB).reverse := by
        rw [pyStripL, hdw]
        exact strip_trailing_append _ _ (by decide)
      have hTTS : (templateTail.toList.reverse.dropWhile wsB).reverse
          = '\n' :: (templateTail.toList.reverse.dropWhile wsB).reverse.tail := by decide
      have hwcq : wordCount (pyStripStr ("\n" ++ p ++ templateTail))
          = (pyWords (p.toList.dropWhile wsB)).length +
            (pyWords (templateTail.toList.reverse.dropWhile wsB).reverse.tail).length := by
        simp only [wordCount, toList_pyStripStr]
        rw [hstr, hTTS, pyWords_append_ws (by decide : wsB '\n' = true),
          List.length_append]
        rfl
      have hN : 15 ≤ (pyWords (templateTail.toList.reverse.dropWhile wsB).reverse.tail).length := by
        decide
      have hfq : hasKW (pyStripStr ("\n" ++ p ++ templateTail)) "format" = true := by
        simp only [hasKW, toList_pyStripStr]
        rw [hstr, lc_append]
        exact containsSub_append_right _ (by decide)
      have hwq : hasKW (pyStripStr ("\n" ++ p ++ templateTail)) "words" = true := by
        simp only [hasKW, toList_pyStripStr]
        rw [hstr, lc_append]
        exact containsSub_append_right _ (by decide)
      rw [_improve_prompt]
      rw [if_neg (show ¬ wordCount (pyStripStr ("\n" ++ p ++ templateTail)) < 15 from by
        rw [hwcq]; omega)]
      rw [show (!(hasKW (pyStripStr ("\n" ++ p ++ templateTail)) "format")) = false from by
        rw [hfq]; rfl]
      rw [show (!(["words", "length", "brief", "detailed"].any
          (hasKW (pyStripStr ("\n" ++ p ++ templateTail))))) = false from by
        simp only [List.any_cons, hwq, Bool.true_or, Bool.not_true]]
      simp only [Bool.false_eq_true, if_false]
      rw [String.append_empty, String.append_empty]
  · -- long prompt: at most two fixed sentences are appended
    by_cases ha1 : hasKW p "format" = true
    · by_cases ha2 : (["words", "length", "brief", "detailed"].any (hasKW p)) = true
      · -- nothing appended: the output is p itself
        have h1 : _improve_prompt p w = p := by
          rw [_improve_prompt, if_neg hwc]
          rw [show (!(hasKW p "format")) = false from by rw [ha1]; rfl]
          rw [show (!(["words", "length", "brief", "detailed"].any (hasKW p))) = false from by
            rw [ha2]; rfl]
          simp only [Bool.false_eq_true, if_false]
          rw [String.append_empty, String.append_empty]
        rw [h1]
        rw [_improve_prompt, if_neg hwc]
        rw [show (!(hasKW p "format")) = false from by rw [ha1]; rfl]
        rw [show (!(["words", "length", "brief", "detailed"].any (hasKW p))) = false from by
          rw [ha2]; rfl]
        simp only [Bool.false_eq_true, if_false]
        rw [String.append_empty, String.append_empty]
      · -- only the length-target sentence is appended
        have h1 : _improve_prompt p w
            = p ++ " Aim for a comprehensive response of 300-500 words." := by
          rw [_improve_prompt, if_neg hwc]
          rw [show (!(hasKW p "format")) = false from by rw [ha1]; rfl]
          rw [show (!(["words", "length", "brief", "detailed"].any (hasKW p))) = true from by
            simp only [Bool.not_eq_true] at ha2
            rw [ha2]; rfl]
          simp only [Bool.false_eq_true, if_false, eq_self_iff_true, if_true]
          rw [String.append_empty]
        rw [h1]
        have hwcq : wordCount (p ++ " Aim for a comprehensive response of 300-500 words.")
            = wordCount p + (pyWords
              " Aim for a comprehensive response of 300-500 words.".toList.tail).length :=
          wordCount_append_ws_head p _ rfl (by decide)
        have hfq : hasKW (p ++ " Aim for a comprehensive response of 300-500 words.") "format"
            = true := hasKW_append_left _ ha1
        have hwq : hasKW (p ++ " Aim for a comprehensive response of 300-500 words.") "words"
            = true := hasKW_append_right _ (by decide)
        rw [_improve_prompt]
        rw [if_neg (show ¬ wordCount (p ++ " Aim for a comprehensive response of 300-500 words.") < 15 from by
          rw [hwcq]; omega)]
        rw [show (!(hasKW (p ++ " Aim for a comprehensive response of 300-500 words.") "format")) = false from by
          rw [hfq]; rfl]
        rw [show (!(["words", "length", "brief", "detailed"].any
            (hasKW (p ++ " Aim for a comprehensive response of 300-500 words.")))) = false from by
          simp only [List.any_cons, hwq, Bool.true_or, Bool.not_true]]
        simp only [Bool.false_eq_true, if_false]
        rw [String.append_empty, String.append_empty]
    · -- the formatting-request sentence is appended (and possibly the length one)
      by_cases ha2 : (["words", "length", "brief", "detailed"].any (hasKW p)) = true
      · have h1 : _improve_prompt p w
            = p ++ "\n\nPlease format your response with clear headings and structure." := by
          rw [_improve_prompt, if_neg hwc]
          rw [show (!(hasKW p "format")) = true from by
            simp only [Bool.not_eq_true] at ha1
            rw [ha1]; rfl]
          rw [show (!(["words", "length", "brief", "detailed"].any (hasKW p))) = false from by
            rw [ha2]; rfl]
          simp only [Bool.false_eq_true, if_false, eq_self_iff_true, if_true]
          rw [String.append_empty]
        rw [h1]
        have hwcq : wordCount (p ++ "\n\nPlease format your response with clear headings and structure.")
            = wordCount p + (pyWords
              "\n\nPlease format your response with clear headings and structure.".toList.tail).length :=
          wordCount_append_ws_head p _ rfl (by decide)
        have hfq : hasKW (p ++ "\n\nPlease format your response with clear headings and structure.") "format"
            = true := hasKW_append_right _ (by decide)
        obtain ⟨w0, hw0mem, hw0⟩ := List.any_eq_true.mp ha2
        have hw0' : hasKW (p ++ "\n\nPlease format your response with clear headings and structure.") w0
            = true := hasKW_append_left _ hw0
        rw [_improve_prompt]
        rw [if_neg (show ¬ wordCount (p ++ "\n\nPlease format your response with clear headings and structure.") < 15 from by
          rw [hwcq]; omega)]
        rw [show (!(hasKW (p ++ "\n\nPlease format your response with clear headings and structure.") "format")) = false from by
          rw [hfq]; rfl]
        rw [show (!(["words", "length", "brief", "detailed"].any
            (hasKW (p ++ "\n\nPlease format your response with clear headings and structure.")))) = false from by
          rw [List.any_eq_true.mpr ⟨w0, hw0mem, hw0'⟩]; rfl]
        simp only [Bool.false_eq_true, if_false]
        rw [String.append_empty, String.append_empty]
      · have h1 : _improve_prompt p w
            = p ++ ("\n\nPlease format your response with clear headings and structure."
              ++ " Aim for a comprehensive response of 300-500 words.") := by
          rw [_improve_prompt, if_neg hwc]
          rw [show (!(hasKW p "format")) = true from by
            simp only [Bool.not_eq_true] at ha1
            rw [ha1]; rfl]
          rw [show (!(["words", "length", "brief", "detailed"].any (hasKW p))) = true from by
            simp only [Bool.not_eq_true] at ha2
            rw [ha2]; rfl]
          simp only [eq_self_iff_true, if_true]
          rw [String.append_assoc]
        rw [h1]
        have hwcq : wordCount (p ++ ("\n\nPlease format your response with clear headings and structure."
              ++ " Aim for a comprehensive response of 300-500 words."))
            = wordCount p + (pyWords
              ("\n\nPlease format your response with clear headings and structure."
                ++ " Aim for a comprehensive response of 300-500 words.").toList.tail).length :=
          wordCount_append_ws_head p _ rfl (by decide)
        have hfq : hasKW (p ++ ("\n\nPlease format your response with clear headings and structure."
              ++ " Aim for a comprehensive response of 300-500 words.")) "format"
            = true := hasKW_append_right _ (by decide)
        have hwq : hasKW (p ++ ("\n\nPlease format your response with clear headings and structure."
              ++ " Aim for a comprehensive response of 300-500 words.")) "words"
            = true := hasKW_append_right _ (by decide)
        rw [_improve_prompt]
        rw [if_neg (show ¬ wordCount (p ++ ("\n\nPlease format your response with clear headings and structure."
              ++ " Aim for a comprehensive response of 300-500 words.")) < 15 from by
          rw [hwcq]; omega)]
        rw [show (!(hasKW (p ++ ("\n\nPlease format your response with clear headings and structure."
              ++ " Aim for a comprehensive response of 300-500 words.")) "format")) = false from by
          rw [hfq]; rfl]
        rw [show (!(["words", "length", "brief", "detailed"].any
            (hasKW (p ++ ("\n\nPlease format your response with clear headings and structure."
              ++ " Aim for a comprehensive response of 300-500 words."))))) = false from by
          simp only [List.any_cons, hwq, Bool.true_or, Bool.not_true]]
        simp only [Bool.false_eq_true, if_false]
        rw [String.append_empty, String.append_empty]
